import Mathlib

/-!
Verification of the detection-and-response engine of a tmux auto-confirm
tool.  The definitions below are shallow embeddings of the Python sources
under `claude_code_autoyes/core/`: pure functions become Lean functions,
subprocess boundaries become explicit environment records, and exceptions
become explicit error values.
-/

set_option autoImplicit false

namespace AutoYes

/-- Helper: `infixOf needle hay` tests whether `needle` occurs as a
contiguous sublist of `hay`. -/
def infixOf (needle : List Char) : List Char → Bool
  | [] => needle.isEmpty
  | c :: t => needle.isPrefixOf (c :: t) || infixOf needle t

/-- Helper: `containsStr hay needle` is Python's `needle in hay` substring test. -/
def containsStr (hay needle : String) : Bool :=
  infixOf needle.data hay.data

/-- Helper: `strStarts s p` is Python's `s.startswith(p)`. -/
def strStarts (s p : String) : Bool :=
  p.data.isPrefixOf s.data

/-! ## constants.py -/

/-- Model of `DEFAULT_SLEEP_INTERVAL = 3.0` — seconds slept between monitoring
cycles (constants.py line 16). -/
def DEFAULT_SLEEP_INTERVAL : ℚ := 3

/-- Model of `DEFAULT_REFRESH_INTERVAL = 30` (constants.py line 17). -/
def DEFAULT_REFRESH_INTERVAL : ℚ := 30

/-- Model of `PROMPT_RESPONSE_PAUSE = 2.0` — pause after sending the Enter key
(constants.py line 18). -/
def PROMPT_RESPONSE_PAUSE : ℚ := 2

/-- Model of `CLAUDE_PROMPT_PATTERNS` from constants.py, with the regex escapes
`\?` and `\.` resolved to their literal characters (none of the patterns
uses any other regex metacharacter).  The fourth entry reproduces the
source file's bytes verbatim (a mojibake rendering of the `❯` glyph). -/
def CLAUDE_PROMPT_PATTERNS : List String :=
  ["Do you want to", "Would you like to", "Proceed?", "‚ùØ 1. Yes"]

/-! ## detector.py : content classification -/

/-- Model of `ClaudeDetector.has_auto_yes_prompt` (detector.py lines 209-216):
empty content is rejected, otherwise a case-sensitive substring test
against four literal prompt markers. -/
def has_auto_yes_prompt (content : String) : Bool :=
  if content = "" then false
  else
    ["Do you want to", "Would you like to", "Proceed?", "❯ 1. Yes"].any
      (fun p => containsStr content p)

/-- Model of `ClaudeDetector._has_active_claude_cursor` (detector.py 171-173). -/
def has_active_claude_cursor (content : String) : Bool :=
  containsStr content "│ >" && containsStr content "╰─"

/-- Model of `ClaudeDetector._has_claude_welcome_screen` (detector.py 175-177). -/
def has_claude_welcome_screen (content : String) : Bool :=
  containsStr content "Welcome to Claude Code"

/-- Model of `ClaudeDetector._has_claude_interface_patterns` (detector.py 179-186). -/
def has_claude_interface_patterns (content : String) : Bool :=
  containsStr content "Claude Code" && containsStr content "╰─" &&
    (containsStr content "cwd:" || containsStr content "/help for help" ||
      containsStr content "Tip:")

/-- Model of `ClaudeDetector._has_claude_update_notification` (detector.py 188-190). -/
def has_claude_update_notification (content : String) : Bool :=
  containsStr content "✓ Update installed" && containsStr content "Restart to apply"

/-- Model of `ClaudeDetector.is_claude_pane` (detector.py 192-207): content-based
fallback classification. -/
def is_claude_pane (content : String) : Bool :=
  if content = "" then false
  else
    has_active_claude_cursor content || has_claude_welcome_screen content ||
      has_claude_interface_patterns content || has_claude_update_notification content

/-! ## daemon_service.py

Subprocess calls are modelled by an environment of oracles.  A call either
returns a `RunResult` (exit status and captured stdout) or raises a Python
exception, modelled by `PyErr`.
-/

/-- The Python exception classes relevant to daemon_service.py's handlers:
`OSError`, `subprocess.SubprocessError`, `ValueError`, `KeyboardInterrupt`,
and a catch-all for any other exception class. -/
inductive PyErr where
  | osError
  | subprocessError
  | valueError
  | keyboardInterrupt
  | other
deriving DecidableEq, Repr

/-- Outcome of a completed `subprocess.run` call: whether the return code
was zero, and the decoded stdout. -/
structure RunResult where
  ok : Bool
  stdout : String
deriving DecidableEq, Repr

/-- Oracles for the three tmux subprocess calls made by `DaemonService`.
Each maps the pane/session argument to either a completed `RunResult` or a
raised exception. -/
structure TmuxEnv where
  hasSessionRun : String → Except PyErr RunResult
  captureRun : String → Except PyErr RunResult
  sendRun : String → Except PyErr RunResult

/-- Model of `DaemonService._session_exists` (daemon_service.py 108-117): runs
`tmux has-session -t <session name>` where the session name is the text
before the first `:` of the pane id; a `SubprocessError` is caught and
yields `False`; other exceptions propagate. -/
def session_exists (env : TmuxEnv) (session_pane : String) : Except PyErr Bool :=
  let session_name : String := ⟨session_pane.data.takeWhile (fun c => c ≠ ':')⟩
  match env.hasSessionRun session_name with
  | .ok r => .ok r.ok
  | .error .subprocessError => .ok false
  | .error e => .error e

/-- Model of `DaemonService._capture_pane_content` (daemon_service.py 119-137): runs
`tmux capture-pane`; stdout on exit code 0, `""` on nonzero exit; a
`SubprocessError` is caught and yields `""`; other exceptions propagate. -/
def capture_pane_content (env : TmuxEnv) (session_pane : String) : Except PyErr String :=
  match env.captureRun session_pane with
  | .ok r => .ok (if r.ok then r.stdout else "")
  | .error .subprocessError => .ok ""
  | .error e => .error e

/-- Model of `DaemonService._send_enter_key` (daemon_service.py 139-147): runs
`tmux send-keys <pane> Enter`; true iff exit code 0; a `SubprocessError`
is caught and yields `False`; other exceptions propagate. -/
def send_enter_key (env : TmuxEnv) (session_pane : String) : Except PyErr Bool :=
  match env.sendRun session_pane with
  | .ok r => .ok r.ok
  | .error .subprocessError => .ok false
  | .error e => .error e

/-- ASCII lower-casing of a string, matching Python's `re.IGNORECASE`
behaviour on the ASCII inputs these patterns are compared against. -/
def lowerStr (s : String) : String :=
  ⟨s.data.map Char.toLower⟩

/-- Model of `PromptDetector.detect_claude_prompt` (daemon_service.py 26-35):
case-insensitive `re.search` of each pattern in `CLAUDE_PROMPT_PATTERNS`.
All four patterns are literal after resolving their escapes, so the search
is a case-folded substring test. -/
def detect_claude_prompt (content : String) : Bool :=
  if content = "" then false
  else CLAUDE_PROMPT_PATTERNS.any (fun p => containsStr (lowerStr content) (lowerStr p))

/-- The slice of `ConfigManager` state that `DaemonService` reads: the
`enabled_sessions` collection (as the iteration-order snapshot of the
Python set) and the global `auto_yes_enabled` flag. -/
structure DConfig where
  enabled_sessions : List String
  auto_yes_enabled : Bool
deriving DecidableEq, Repr

/-- Model of `DaemonService.should_process_session` (daemon_service.py 83-96):
membership in `enabled_sessions` AND the global toggle. -/
def should_process_session (cfg : DConfig) (session_pane : String) : Bool :=
  decide (session_pane ∈ cfg.enabled_sessions) && cfg.auto_yes_enabled

/-- The body of `DaemonService._check_enabled_sessions` for one pane
(daemon_service.py 101-106): liveness check, content capture, prompt
classification, keystroke send.  Returns whether the Enter key was sent
(the `time.sleep(PROMPT_RESPONSE_PAUSE)` after a successful send has no
observable effect in this model); any exception escaping one of the three
helpers propagates. -/
def process_session (env : TmuxEnv) (session_pane : String) : Except PyErr Bool :=
  match session_exists env session_pane with
  | .error e => .error e
  | .ok false => .ok false
  | .ok true =>
    match capture_pane_content env session_pane with
    | .error e => .error e
    | .ok content =>
      if detect_claude_prompt content then
        match send_enter_key env session_pane with
        | .error e => .error e
        | .ok sent => .ok sent
      else .ok false

/-- Instrumented outcome of one monitoring cycle: which panes the `for`
loop began processing, which received the Enter key, and the exception (if
any) that aborted the cycle. -/
structure CycleResult where
  attempted : List String
  sent : List String
  err : Option PyErr
deriving DecidableEq, Repr

/-- Model of `DaemonService._check_enabled_sessions` (daemon_service.py 98-106):
iterates the enabled sessions in order; there is no per-pane exception
handler, so an exception raised while processing one pane aborts the loop
for the remaining panes.  Note the method reads `enabled_sessions`
directly and never consults `auto_yes_enabled` / `should_process_session`. -/
def check_enabled_sessions (env : TmuxEnv) : List String → CycleResult
  | [] => ⟨[], [], none⟩
  | s :: rest =>
    match process_session env s with
    | .error e => ⟨[s], [], some e⟩
    | .ok sent =>
      let r := check_enabled_sessions env rest
      ⟨s :: r.attempted, if sent then s :: r.sent else r.sent, r.err⟩

/-- One full cycle of the monitoring loop over the configuration's enabled
sessions. -/
def run_cycle (env : TmuxEnv) (cfg : DConfig) : CycleResult :=
  check_enabled_sessions env cfg.enabled_sessions

/-- Exception classes caught by the `except (OSError,
subprocess.SubprocessError, ValueError)` handler of
`DaemonService.start_monitoring_loop` (daemon_service.py 72). -/
def catchable : PyErr → Bool
  | .osError => true
  | .subprocessError => true
  | .valueError => true
  | .keyboardInterrupt => false
  | .other => false

/-- How `DaemonService.start_monitoring_loop` exits: fuel exhaustion (the
loop is still running), normal exit with the number of cycles executed and
the final `self.running` flag, or an uncaught exception after some number
of cycles. -/
inductive LoopExit where
  | outOfFuel
  | finished (cycles : Nat) (running : Bool)
  | raised (e : PyErr) (cycles : Nat)
deriving DecidableEq, Repr

/-- Model of `DaemonService.start_monitoring_loop` (daemon_service.py 52-77),
fuel-indexed.  State carried: `iterations` (only incremented when a cycle
completes without raising) and `cycles` (number of
`_check_enabled_sessions` calls made).  A caught exception is logged and
the loop continues; `KeyboardInterrupt` stops and breaks; any other
exception propagates.  The `if max_iterations and iterations >=
max_iterations` guard treats `None` and `0` as falsy; on that branch
`stop()` sets `running = False` and the loop breaks.  `time.sleep` has no
observable effect in this model. -/
def start_monitoring_loop (env : TmuxEnv) (cfg : DConfig) (max_iterations : Option Nat) :
    Nat → Nat → Nat → LoopExit
  | 0, _, _ => .outOfFuel
  | fuel + 1, iterations, cycles =>
    let r := run_cycle env cfg
    match r.err with
    | some e =>
      if catchable e then
        start_monitoring_loop env cfg max_iterations fuel iterations (cycles + 1)
      else if e = .keyboardInterrupt then .finished (cycles + 1) false
      else .raised e (cycles + 1)
    | none =>
      let it := iterations + 1
      match max_iterations with
      | some m =>
        if m ≠ 0 ∧ m ≤ it then .finished (cycles + 1) false
        else start_monitoring_loop env cfg max_iterations fuel it (cycles + 1)
      | none => start_monitoring_loop env cfg max_iterations fuel it (cycles + 1)

/-! ## config.py : ConfigManager

The JSON config file is modelled at the parsed level: its content is
either a parsed `ConfigData` record or `none` (file missing, or
`json.JSONDecodeError` / `FileNotFoundError` while reading — both fall
back to defaults).  `save` serialises the whole record and rewrites the
file; the swallowed-`OSError` save-failure path is not modelled (saves
are modelled as the successful I/O path). -/

/-- The four keys `ConfigManager.save` writes (config.py 64-70). -/
structure ConfigData where
  enabled_sessions : List String
  daemon_enabled : Bool
  refresh_interval : ℚ
  auto_yes_enabled : Bool
deriving DecidableEq, Repr

/-- The config file's state: `none` when absent or unparseable. -/
structure FileState where
  content : Option ConfigData
deriving DecidableEq, Repr

/-- In-memory `ConfigManager` attributes (config.py 26-32).  The Python
`enabled_sessions` set is modelled as its list of elements. -/
structure ConfigManager where
  enabled_sessions : List String
  daemon_enabled : Bool
  refresh_interval : ℚ
  auto_yes_enabled : Bool
deriving DecidableEq, Repr

/-- Model of `ConfigManager.__init__` followed by `load()` (config.py 26-56):
defaults `(∅, False, 30, True)`, overwritten from the file when it exists
and parses. -/
def ConfigManager.loadFrom (fs : FileState) : ConfigManager :=
  match fs.content with
  | some data =>
    ⟨data.enabled_sessions, data.daemon_enabled, data.refresh_interval,
      data.auto_yes_enabled⟩
  | none => ⟨[], false, DEFAULT_REFRESH_INTERVAL, true⟩

/-- Model of `ConfigManager.save` with no argument (config.py 58-77): full-file
rewrite of the current state. -/
def ConfigManager.saveFile (cm : ConfigManager) : FileState :=
  ⟨some ⟨cm.enabled_sessions, cm.daemon_enabled, cm.refresh_interval,
    cm.auto_yes_enabled⟩⟩

/-- Model of `ConfigManager.is_enabled` (config.py 112-121). -/
def ConfigManager.is_enabled (cm : ConfigManager) (session_pane : String) : Bool :=
  decide (session_pane ∈ cm.enabled_sessions)

/-- Model of `ConfigManager.toggle_session` (config.py 79-96): remove the id if
present, otherwise add it; save; return the new enablement.  Returns
`(new state of the flag, updated manager, updated file)`. -/
def ConfigManager.toggle_session (cm : ConfigManager) (session_pane : String) :
    Bool × ConfigManager × FileState :=
  if session_pane ∈ cm.enabled_sessions then
    let cm' : ConfigManager :=
      { cm with enabled_sessions := cm.enabled_sessions.filter (fun x => x ≠ session_pane) }
    (false, cm', cm'.saveFile)
  else
    let cm' : ConfigManager :=
      { cm with enabled_sessions := cm.enabled_sessions ++ [session_pane] }
    (true, cm', cm'.saveFile)

/-! ## daemon.py : DaemonManager -/

/-- Strip leading and trailing whitespace, Python `str.strip()`. -/
def pyStrip (s : String) : String :=
  ⟨((s.data.dropWhile Char.isWhitespace).reverse.dropWhile Char.isWhitespace).reverse⟩

/-- Parse a non-empty all-digit character list as a natural number. -/
def digitsToNat (cs : List Char) : Option Nat :=
  if cs ≠ [] ∧ cs.all Char.isDigit then
    some (cs.foldl (fun n c => n * 10 + (c.toNat - 48)) 0)
  else none

/-- Python's `int(s)` on a stripped string: optional sign followed by
digits (digit-grouping underscores are not modelled).  Raises `ValueError`
(here: `none`) otherwise. -/
def pyInt? (s : String) : Option Int :=
  match (pyStrip s).data with
  | '-' :: rest => (digitsToNat rest).map (fun n => -(n : Int))
  | '+' :: rest => (digitsToNat rest).map (fun n => (n : Int))
  | cs => (digitsToNat cs).map (fun n => (n : Int))

/-- State visible to `DaemonManager.is_running`: the pid marker file's
content (`none` when the file is absent) and, for each pid, the stdout of
`ps -p <pid>` when that process is alive (`none` when `ps` exits nonzero,
i.e. the process is gone, or the call fails). -/
structure DaemonEnv where
  pidFileContent : Option String
  psOutput : Int → Option String

/-- The signature test on the `ps -p` output (daemon.py 31): the daemon
script's file name, or a bash process. -/
def matchesDaemonSignature (ps_output : String) : Bool :=
  containsStr ps_output "claude-autoyes-daemon.sh" || containsStr ps_output "bash"

/-- Model of `DaemonManager.is_running` (daemon.py 15-43).  Returns the result and
the marker file's state afterwards: absent file → false; unparseable pid →
delete marker, false; dead pid → delete marker, false; live pid whose
`ps` output fails the signature test → delete marker, false; live pid
with matching signature → true, marker kept. -/
def is_running (env : DaemonEnv) : Bool × DaemonEnv :=
  match env.pidFileContent with
  | none => (false, env)
  | some txt =>
    match pyInt? txt with
    | none => (false, ⟨none, env.psOutput⟩)
    | some pid =>
      match env.psOutput pid with
      | some out =>
        if matchesDaemonSignature out then (true, env)
        else (false, ⟨none, env.psOutput⟩)
      | none => (false, ⟨none, env.psOutput⟩)

/-! ## detector.py : process classification and instance enumeration -/

/-- Model of `get_pane_process_info`'s successful result (detector.py 60-95):
the pane's foreground command and pid.  The failure paths (nonzero exit,
malformed output, exception) are all modelled as `none`, matching the
empty dict the method returns there. -/
structure ProcessSnapshot where
  command : String
  pid : String
deriving DecidableEq, Repr

/-- One parsed row of `ps -eo pid,ppid,command` (detector.py 42-53). -/
structure ChildRec where
  pid : String
  ppid : String
  command : String
deriving DecidableEq, Repr

/-- Oracles for the subprocess boundaries `ClaudeDetector` crosses:
the pane enumeration, per-pane process info, `ps -p <pid> -o args=`
(stripped stdout, `none` on failure), the full parsed process table
(`none` when `ps -eo` fails), per-pane content capture (already `""` on
failure, as in `capture_pane_content`), the tail of the shared log file
(`none` when the `tail` call fails), and the current `%H:%M:%S` time. -/
structure DetectorEnv where
  panes : List String
  paneInfo : String → Option ProcessSnapshot
  psArgs : String → Option String
  processTable : Option (List ChildRec)
  capture : String → String
  logTail : Option String
  now : String

/-- Model of `ClaudeDetector.find_child_processes` (detector.py 18-58): filter the
process table by parent pid; every failure path yields `[]`. -/
def find_child_processes (env : DetectorEnv) (parent_pid : String) : List ChildRec :=
  match env.processTable with
  | none => []
  | some tbl => tbl.filter (fun c => c.ppid = parent_pid)

/-- The path fragments identifying the Claude binary (detector.py 137-141). -/
def claude_indicators : List String :=
  ["/bin/claude", "/.claude/", "/claude.js"]

/-- The hard exclusion set: the claude-squad wrapper's command names
(detector.py 117 and 295). -/
def squad_exclusions : List String :=
  ["claude-squad", "cs"]

/-- Model of `ClaudeDetector.is_claude_process` (detector.py 97-169): reject the
wrapper outright; accept a direct `claude` command; for a `node` command
with a pid, accept when the full argument list contains a Claude binary
path fragment and does not mention the wrapper; finally accept when any
direct child process runs `claude` (exactly, or followed by a space). -/
def is_claude_process (env : DetectorEnv) (process_info : Option ProcessSnapshot) : Bool :=
  match process_info with
  | none => false
  | some info =>
    if decide (info.command ∈ squad_exclusions) then false
    else if info.command = "claude" then true
    else
      let nodeHit : Bool :=
        if info.command = "node" ∧ info.pid ≠ "" then
          match env.psArgs info.pid with
          | some full_command =>
            !containsStr full_command "claude-squad" &&
              claude_indicators.any (fun ind => containsStr full_command ind)
          | none => false
        else false
      if nodeHit then true
      else if info.pid ≠ "" then
        (find_child_processes env info.pid).any
          (fun child => child.command = "claude" || strStarts child.command "claude ")
      else false

/-- Python `s.split("\n")`: split a character list at every separator
occurrence; `""` splits to `[""]`. -/
def splitChar (sep : Char) : List Char → List (List Char)
  | [] => [[]]
  | c :: t =>
    if c = sep then [] :: splitChar sep t
    else
      match splitChar sep t with
      | [] => [[c]]
      | h :: r => (c :: h) :: r

/-- The lines of a string, Python `s.split("\n")`. -/
def splitLines (s : String) : List String :=
  (splitChar '\n' s.data).map (fun cs => ⟨cs⟩)

/-- Model of `re.search(r"(\d{2}:\d{2}:\d{2})", line)` (detector.py 330-332):
the leftmost eight-character `HH:MM:SS`-shaped match, if any. -/
def findTime : List Char → Option String
  | a :: b :: c1 :: c :: d :: c2 :: e :: f :: rest =>
    if a.isDigit && b.isDigit && c1 = ':' && c.isDigit && d.isDigit &&
        c2 = ':' && e.isDigit && f.isDigit then
      some ⟨[a, b, ':', c, d, ':', e, f]⟩
    else findTime (b :: c1 :: c :: d :: c2 :: e :: f :: rest)
  | _ => none

/-- The inner `for line in …` scan (detector.py 326-337): the first log
line containing the marker from which a timestamp can be extracted (a
marker line without an extractable timestamp does not stop the scan,
because the `break` sits inside `if time_match`). -/
def scanLogLines (marker : String) : List String → Option String
  | [] => none
  | line :: rest =>
    if containsStr line marker then
      match findTime line.data with
      | some t => some t
      | none => scanLogLines marker rest
    else scanLogLines marker rest

/-- The log-based `last_prompt` recovery (detector.py 316-339): requires
the `tail` call to succeed and its output to mention the pane id, then
scans for `"Found prompt in <pane_id>:"` lines. -/
def recover_last_prompt (env : DetectorEnv) (pane_id : String) : Option String :=
  match env.logTail with
  | none => none
  | some out =>
    if containsStr out pane_id then
      scanLogLines ("Found prompt in " ++ pane_id ++ ":") (splitLines out)
    else none

/-- Model of `ClaudeInstance` (models.py 7-15). -/
structure ClaudeInstance where
  session : String
  pane : String
  is_claude : Bool
  last_prompt : Option String := none
  enabled : Bool := false
deriving DecidableEq, Repr

/-- Python `s.split(":", 1)` when it yields two parts: the text before the
first `:` and everything after it.  `none` when the string has no `:`
(where the Python two-target unpacking raises `ValueError`). -/
def splitFirstColon : List Char → Option (List Char × List Char)
  | [] => none
  | c :: t =>
    if c = ':' then some ([], t)
    else
      match splitFirstColon t with
      | some (l, r) => some (c :: l, r)
      | none => none

/-- Instrumented result of `find_claude_instances`: the returned instances
plus the pane ids for which `capture_pane_content` was invoked. -/
structure EnumResult where
  instances : List ClaudeInstance
  captured : List String
deriving DecidableEq, Repr

/-- The known-irrelevant interactive programs excluded from content-based
fallback (detector.py 302). -/
def fallback_exclusions : List String :=
  ["nvim", "vim", "less", "more", "cat"]

/-- The command `find_claude_instances` reads for a pane:
`process_info.get("command", "")` (detector.py 292). -/
def pane_command (env : DetectorEnv) (pane_id : String) : String :=
  ((env.paneInfo pane_id).map (fun i => i.command)).getD ""

/-- The fallback/capture step of one pane iteration (detector.py
300-307): if process detection failed and the command is not a known
pager/editor, capture content and try content detection; otherwise
capture content only when process detection succeeded.  Returns the
resulting `is_claude` flag, the content in scope, and the capture calls
made. -/
def paneStep (env : DetectorEnv) (pane_id : String) (is_claude0 : Bool)
    (command : String) : Bool × String × List String :=
  if is_claude0 = false ∧ ¬command ∈ fallback_exclusions then
    let content := env.capture pane_id
    (is_claude_pane content, content, [pane_id])
  else if is_claude0 then (is_claude0, env.capture pane_id, [pane_id])
  else (is_claude0, "", [])

/-- One iteration of the `for pane_id in panes` loop of
`ClaudeDetector.find_claude_instances` (detector.py 289-344).  A pane
whose reported command is in `squad_exclusions` is skipped before any
capture (`continue`).  A detected pane id is split at its first `:`; a
pane id without one raises `ValueError` (modelled as `none`).  `enabled`
is left at the dataclass default `False`.  Returns the constructed
instance (if any) and the pane ids passed to `capture_pane_content`
during this iteration. -/
def processPane (env : DetectorEnv) (pane_id : String) :
    Option (Option ClaudeInstance × List String) :=
  let process_info := env.paneInfo pane_id
  let command := (process_info.map (fun i => i.command)).getD ""
  if command ∈ squad_exclusions then some (none, [])
  else
    let step := paneStep env pane_id (is_claude_process env process_info) command
    if step.1 then
      match splitFirstColon pane_id.data with
      | none => none
      | some (sessionCs, paneCs) =>
        let last_prompt :=
          if has_auto_yes_prompt step.2.1 then some env.now
          else recover_last_prompt env pane_id
        some (some ⟨⟨sessionCs⟩, ⟨paneCs⟩, true, last_prompt, false⟩, step.2.2)
    else some (none, step.2.2)

/-- The `for` loop of `find_claude_instances` over a list of pane ids,
accumulating instances and capture calls; a raised `ValueError` aborts the
whole enumeration. -/
def findAux (env : DetectorEnv) : List String → Option EnumResult
  | [] => some ⟨[], []⟩
  | pane_id :: rest =>
    match processPane env pane_id with
    | none => none
    | some (inst?, caps) =>
      match findAux env rest with
      | none => none
      | some r =>
        some ⟨(match inst? with | some i => i :: r.instances | none => r.instances),
          caps ++ r.captured⟩

/-- Model of `ClaudeDetector.find_claude_instances` (detector.py 277-346). -/
def find_claude_instances (env : DetectorEnv) : Option EnumResult :=
  findAux env env.panes

/-! ## Helper lemmas -/

/-- A successful split at the first colon reassembles to the original
character list. -/
theorem splitFirstColon_join (cs : List Char) :
    ∀ l r, splitFirstColon cs = some (l, r) → l ++ ':' :: r = cs := by
  induction cs with
  | nil => intro l r h; simp [splitFirstColon] at h
  | cons c t ih =>
    intro l r h
    by_cases hc : c = ':'
    · subst hc
      simp [splitFirstColon] at h
      obtain ⟨h1, h2⟩ := h
      subst h1; subst h2; rfl
    · simp [splitFirstColon, hc] at h
      match he : splitFirstColon t with
      | some (l', r') =>
        rw [he] at h
        simp at h
        obtain ⟨h1, h2⟩ := h
        subst h1; subst h2
        simpa using ih l' r' he
      | none => rw [he] at h; simp at h

/-- Joining two character lists with `":"` at the string level. -/
theorem mk_append_colon (l r : List Char) :
    String.mk l ++ ":" ++ String.mk r = String.mk (l ++ ':' :: r) := by
  show String.mk ((l ++ [':']) ++ r) = String.mk (l ++ ':' :: r)
  simp

/-! ## Claims -/

/-- C4.  The claim expects `has_prompt` to accept the upper-case variant
`"DO YOU WANT TO CONTINUE?"`, but `has_auto_yes_prompt` performs
case-sensitive substring tests and none of its four markers occurs in that
string, so it returns `false`. -/
theorem C4_counterexample :
    ¬ has_auto_yes_prompt "DO YOU WANT TO CONTINUE?" = true := by decide

/-- C4 (amended).  `has_auto_yes_prompt` returns true on
`"Do you want to continue?"` and `"❯ 1. Yes\n❯ 2. No"`, and false on
`""`, `"Regular terminal output"`, and the upper-case
`"DO YOU WANT TO CONTINUE?"` (the substring checks are case-sensitive). -/
theorem C4_prompt_literals :
    has_auto_yes_prompt "Do you want to continue?" = true ∧
    has_auto_yes_prompt "❯ 1. Yes\n❯ 2. No" = true ∧
    has_auto_yes_prompt "DO YOU WANT TO CONTINUE?" = false ∧
    has_auto_yes_prompt "" = false ∧
    has_auto_yes_prompt "Regular terminal output" = false := by decide

/-- C5.  The claim says the post-send cooldown is strictly longer than the
poll interval, but `PROMPT_RESPONSE_PAUSE = 2.0` is not greater than
`DEFAULT_SLEEP_INTERVAL = 3.0`. -/
theorem C5_counterexample :
    ¬ DEFAULT_SLEEP_INTERVAL < PROMPT_RESPONSE_PAUSE := by
  norm_num [PROMPT_RESPONSE_PAUSE, DEFAULT_SLEEP_INTERVAL]

/-- C5 (amended).  The fixed cooldown slept after a successful keystroke
send (`PROMPT_RESPONSE_PAUSE`, 2.0 s) is strictly shorter than the normal
poll interval slept between cycles (`DEFAULT_SLEEP_INTERVAL`, 3.0 s). -/
theorem C5_cooldown_shorter :
    PROMPT_RESPONSE_PAUSE < DEFAULT_SLEEP_INTERVAL := by
  norm_num [PROMPT_RESPONSE_PAUSE, DEFAULT_SLEEP_INTERVAL]

/-- C7.  For every store state and pane id: toggling twice restores the
original `is_enabled` value; the first toggle returns the flipped value,
and a fresh store loaded from the file written by the first toggle
reflects the flipped value; a fresh store loaded after the second toggle
reflects the original value (each call persists synchronously). -/
theorem C7_toggle_involutive_persistent (cm : ConfigManager) (s : String) :
    ((cm.toggle_session s).2.1.toggle_session s).2.1.is_enabled s = cm.is_enabled s ∧
    (cm.toggle_session s).1 = !cm.is_enabled s ∧
    (ConfigManager.loadFrom (cm.toggle_session s).2.2).is_enabled s = !cm.is_enabled s ∧
    (ConfigManager.loadFrom ((cm.toggle_session s).2.1.toggle_session s).2.2).is_enabled s
      = cm.is_enabled s := by
  by_cases h : s ∈ cm.enabled_sessions
  · simp [ConfigManager.toggle_session, ConfigManager.is_enabled, ConfigManager.saveFile,
      ConfigManager.loadFrom, h, List.mem_filter, List.mem_append]
  · simp [ConfigManager.toggle_session, ConfigManager.is_enabled, ConfigManager.saveFile,
      ConfigManager.loadFrom, h, List.mem_filter, List.mem_append]

/-- C8.  For every marker-file state: a marker whose pid names an exited
process yields `is_running = false` with the marker removed; a marker
whose pid names a live process whose `ps` output fails the signature test
yields `false` with the marker removed; and `is_running` returns true only
when the marker parses to a pid that is alive with a matching signature. -/
theorem C8_is_running_staleness (env : DaemonEnv) :
    (∀ txt pid, env.pidFileContent = some txt → pyInt? txt = some pid →
      env.psOutput pid = none →
      (is_running env).1 = false ∧ (is_running env).2.pidFileContent = none) ∧
    (∀ txt pid out, env.pidFileContent = some txt → pyInt? txt = some pid →
      env.psOutput pid = some out → matchesDaemonSignature out = false →
      (is_running env).1 = false ∧ (is_running env).2.pidFileContent = none) ∧
    ((is_running env).1 = true →
      ∃ txt pid out, env.pidFileContent = some txt ∧ pyInt? txt = some pid ∧
        env.psOutput pid = some out ∧ matchesDaemonSignature out = true) := by
  refine ⟨?_, ?_, ?_⟩
  · intro txt pid h1 h2 h3
    simp [is_running, h1, h2, h3]
  · intro txt pid out h1 h2 h3 h4
    simp [is_running, h1, h2, h3, h4]
  · intro h
    match h1 : env.pidFileContent with
    | none => simp [is_running, h1] at h
    | some txt =>
      match h2 : pyInt? txt with
      | none => simp [is_running, h1, h2] at h
      | some pid =>
        match h3 : env.psOutput pid with
        | none => simp [is_running, h1, h2, h3] at h
        | some out =>
          by_cases h4 : matchesDaemonSignature out = true
          · exact ⟨txt, pid, out, rfl, h2, h3, h4⟩
          · simp [is_running, h1, h2, h3, h4] at h

/-- Witness for C8 at a concrete state: marker file containing `"123"`
while no process with pid 123 exists. -/
theorem C8_is_running_witness :
    pyInt? "123" = some 123 ∧
    ((is_running ⟨some "123", fun _ => none⟩).1 = false ∧
      (is_running ⟨some "123", fun _ => none⟩).2.pidFileContent = none) :=
  ⟨by decide,
    (C8_is_running_staleness ⟨some "123", fun _ => none⟩).1 "123" 123 rfl (by decide) rfl⟩

/-- Concrete cycle input for C1: one enabled pane `"test:0"` whose session
is alive, whose captured content shows a confirmation prompt, and whose
keystroke send succeeds — while the global `auto_yes_enabled` toggle is
off. -/
def envC1 : TmuxEnv :=
  ⟨fun _ => .ok ⟨true, ""⟩, fun _ => .ok ⟨true, "Do you want to continue?"⟩,
    fun _ => .ok ⟨true, ""⟩⟩

/-- The configuration for C1: the pane is enabled but the global
kill-switch is off. -/
def cfgC1 : DConfig := ⟨["test:0"], false⟩

/-- C1.  Evaluating the monitoring cycle at the failing input: with the
global toggle off, `should_process_session` says the pane must not be
processed, yet `_check_enabled_sessions` (which never consults the global
toggle) still processes the pane and sends the Enter keystroke. -/
theorem C1_cycle_ignores_global_toggle :
    cfgC1.auto_yes_enabled = false ∧
    should_process_session cfgC1 "test:0" = false ∧
    (run_cycle envC1 cfgC1).attempted = ["test:0"] ∧
    (run_cycle envC1 cfgC1).sent = ["test:0"] := by decide

/-- The monitoring loop never lets an exception of one of the three caught
classes (`OSError`, `SubprocessError`, `ValueError`) escape to its caller. -/
theorem loop_raised_not_catchable (env : TmuxEnv) (cfg : DConfig) (maxIt : Option Nat) :
    ∀ fuel i c e cyc, start_monitoring_loop env cfg maxIt fuel i c = .raised e cyc →
      catchable e = false := by
  intro fuel
  induction fuel with
  | zero => intro i c e cyc h; simp [start_monitoring_loop] at h
  | succ f ih =>
    intro i c e cyc h
    simp only [start_monitoring_loop] at h
    split at h
    · split at h
      · exact ih _ _ _ _ h
      · split at h
        · simp at h
        · rename_i herr hcatch _
          obtain ⟨he, _⟩ := LoopExit.raised.inj h
          subst he
          simpa using hcatch
    · split at h
      · split at h
        · simp at h
        · exact ih _ _ _ _ h
      · exact ih _ _ _ _ h

/-- Concrete cycle input for C2: three enabled panes, all of whose tmux
sessions are alive, where capturing content of the second pane `"a:0"`
raises an uncaught `OSError` (e.g. the `tmux` binary going missing, which
`_capture_pane_content` does not catch). -/
def envC2 : TmuxEnv :=
  ⟨fun _ => .ok ⟨true, ""⟩,
    fun p => if p = "a:0" then .error .osError else .ok ⟨true, ""⟩,
    fun _ => .ok ⟨true, ""⟩⟩

/-- The configuration for C2: three enabled panes. -/
def cfgC2 : DConfig := ⟨["b:0", "a:0", "c:0"], true⟩

/-- C2.  The claim is false: with N = 3 enabled panes where processing the
second raises, the cycle attempts only 2 panes, not all 3 — there is no
per-pane exception handler, so the exception aborts the `for` loop. -/
theorem C2_counterexample :
    cfgC2.enabled_sessions.length = 3 ∧
    (run_cycle envC2 cfgC2).attempted.length = 2 ∧
    (run_cycle envC2 cfgC2).err = some .osError := by decide

/-- C2 (amended).  If the panes before position k all process without
raising and processing pane k raises `e`, one cycle attempts exactly the
first k+1 panes (the panes after k are skipped), the cycle ends with
exception `e`, and — when `e` is one of the three caught classes — the
monitoring loop catches it, so nothing is raised to the loop's caller. -/
theorem C2_cycle_aborts_at_failing_pane (env : TmuxEnv) (pre : List String) (s : String)
    (post : List String) (e : PyErr)
    (hok : ∀ p ∈ pre, ∃ b, process_session env p = Except.ok b)
    (he : process_session env s = Except.error e) :
    (check_enabled_sessions env (pre ++ s :: post)).attempted.length = pre.length + 1 ∧
    (check_enabled_sessions env (pre ++ s :: post)).err = some e ∧
    (catchable e = true → ∀ cfg maxIt fuel i c cyc,
      start_monitoring_loop env cfg maxIt fuel i c ≠ .raised e cyc) := by
  have key : ∀ (pr : List String), (∀ p ∈ pr, ∃ b, process_session env p = Except.ok b) →
      (check_enabled_sessions env (pr ++ s :: post)).attempted = pr ++ [s] ∧
      (check_enabled_sessions env (pr ++ s :: post)).err = some e := by
    intro pr hpr
    induction pr with
    | nil => simp [check_enabled_sessions, he]
    | cons p t ih =>
      obtain ⟨b, hb⟩ := hpr p (List.mem_cons_self _ _)
      have iht := ih (fun q hq => hpr q (List.mem_cons_of_mem _ hq))
      simp [check_enabled_sessions, hb, iht.1, iht.2]
  refine ⟨by rw [(key pre hok).1]; simp, (key pre hok).2, ?_⟩
  intro hc cfg maxIt fuel i c cyc hraised
  have hfalse := loop_raised_not_catchable env cfg maxIt fuel i c e cyc hraised
  rw [hc] at hfalse
  exact absurd hfalse (by simp)

/-- Witness for C2 (amended) at the concrete input of the counterexample:
pane `"b:0"` succeeds, pane `"a:0"` raises `OSError`, pane `"c:0"` is
never attempted, and the loop does not surface the exception. -/
theorem C2_cycle_aborts_witness :
    (check_enabled_sessions envC2 (["b:0"] ++ "a:0" :: ["c:0"])).attempted.length
      = (["b:0"] : List String).length + 1 ∧
    (check_enabled_sessions envC2 (["b:0"] ++ "a:0" :: ["c:0"])).err = some .osError ∧
    start_monitoring_loop envC2 cfgC2 (some 1) 1 0 0 ≠ .raised .osError 1 := by
  have h := C2_cycle_aborts_at_failing_pane envC2 ["b:0"] "a:0" ["c:0"] .osError
    (by intro p hp; simp at hp; subst hp; exact ⟨false, rfl⟩) rfl
  exact ⟨h.1, h.2.1, h.2.2 (by decide) cfgC2 (some 1) 1 0 0 1⟩

/-- Auxiliary induction for C10: with an error-free cycle, the loop run
with `max_iterations = n` exits after exactly the remaining number of
cycles with the running flag cleared. -/
theorem loop_finishes_aux (env : TmuxEnv) (cfg : DConfig) (n : Nat)
    (herr : (run_cycle env cfg).err = none) :
    ∀ k c i fuel, i + (k + 1) = n → k + 1 ≤ fuel →
      start_monitoring_loop env cfg (some n) fuel i c = .finished (c + (k + 1)) false := by
  intro k
  induction k with
  | zero =>
    intro c i fuel hi hf
    obtain ⟨f, rfl⟩ : ∃ f, fuel = f + 1 := ⟨fuel - 1, by omega⟩
    simp only [start_monitoring_loop, herr]
    rw [if_pos (by omega)]
  | succ k ih =>
    intro c i fuel hi hf
    obtain ⟨f, rfl⟩ : ∃ f, fuel = f + 1 := ⟨fuel - 1, by omega⟩
    simp only [start_monitoring_loop, herr]
    rw [if_neg (by rintro ⟨h1, h2⟩; omega)]
    rw [ih (c + 1) (i + 1) f (by omega) (by omega)]
    congr 1
    omega

/-- C10.  For every n ≥ 1, if the per-cycle session check returns without
raising, `start_monitoring_loop` with `max_iterations = n` (and enough
fuel) terminates after exactly n cycles with the service's running flag
false. -/
theorem C10_loop_terminates (env : TmuxEnv) (cfg : DConfig) (n fuel : Nat)
    (hn : 1 ≤ n) (herr : (run_cycle env cfg).err = none) (hf : n ≤ fuel) :
    start_monitoring_loop env cfg (some n) fuel 0 0 = .finished n false := by
  have h := loop_finishes_aux env cfg n herr (n - 1) 0 0 fuel (by omega) (by omega)
  have hrw : n - 1 + 1 = n := by omega
  rw [hrw] at h
  simpa using h

/-- Concrete loop input for C10: one enabled pane, all tmux calls succeed,
no prompt on screen. -/
def envC10 : TmuxEnv :=
  ⟨fun _ => .ok ⟨true, ""⟩, fun _ => .ok ⟨true, ""⟩, fun _ => .ok ⟨true, ""⟩⟩

/-- The configuration for C10: one enabled pane, global toggle on. -/
def cfgC10 : DConfig := ⟨["a:0"], true⟩

/-- Witness for C10 at n = 2 with fuel 3: the loop finishes after exactly
2 cycles with the running flag false. -/
theorem C10_loop_witness :
    1 ≤ 2 ∧ (run_cycle envC10 cfgC10).err = none ∧
    start_monitoring_loop envC10 cfgC10 (some 2) 3 0 0 = .finished 2 false :=
  ⟨by decide, by decide,
    C10_loop_terminates envC10 cfgC10 2 3 (by decide) (by decide) (by decide)⟩

/-- Structure eta for strings. -/
theorem mk_data_eta (s : String) : String.mk s.data = s := rfl

/-- The capture calls made by `paneStep` are either exactly the pane in
question or none at all. -/
theorem paneStep_caps (env : DetectorEnv) (p : String) (b : Bool) (c : String) :
    (paneStep env p b c).2.2 = [p] ∨ (paneStep env p b c).2.2 = [] := by
  unfold paneStep
  split
  · exact Or.inl rfl
  · split
    · exact Or.inl rfl
    · exact Or.inr rfl

/-- Every capture call made by one pane iteration targets that pane, and
only happens when the pane's reported command is outside the hard
exclusion set. -/
theorem processPane_captured (env : DetectorEnv) (p : String)
    (res : Option ClaudeInstance × List String) (h : processPane env p = some res) :
    ∀ q ∈ res.2, q = p ∧ ¬pane_command env p ∈ squad_exclusions := by
  intro q hq
  simp only [processPane] at h
  split at h
  · obtain rfl := (Option.some.inj h).symm
    simp at hq
  · rename_i hexc
    have hexc' : ¬pane_command env p ∈ squad_exclusions := by
      simpa [pane_command] using hexc
    have hcaps := paneStep_caps env p
      (is_claude_process env (env.paneInfo p))
      ((Option.map (fun i => i.command) (env.paneInfo p)).getD "")
    split at h
    · split at h
      · exact absurd h (by simp)
      · obtain rfl := (Option.some.inj h).symm
        rcases hcaps with hc | hc <;> rw [hc] at hq
        · simp at hq
          exact ⟨hq, hexc'⟩
        · simp at hq
    · obtain rfl := (Option.some.inj h).symm
      rcases hcaps with hc | hc <;> rw [hc] at hq
      · simp at hq
        exact ⟨hq, hexc'⟩
      · simp at hq

/-- Every instance constructed by one pane iteration is flagged
`is_claude = true`, keeps the dataclass default `enabled = false`, and its
session and pane joined by `":"` reassemble the pane id. -/
theorem processPane_inst (env : DetectorEnv) (p : String) (inst : ClaudeInstance)
    (caps : List String) (h : processPane env p = some (some inst, caps)) :
    inst.is_claude = true ∧ inst.enabled = false ∧
      inst.session ++ ":" ++ inst.pane = p := by
  simp only [processPane] at h
  split at h
  · exact absurd (Prod.mk.injEq .. ▸ Option.some.inj h).1 (by simp)
  · split at h
    · split at h
      · exact absurd h (by simp)
      · rename_i hsplit
        obtain ⟨h1, h2⟩ := Prod.mk.injEq .. ▸ Option.some.inj h
        obtain rfl := (Option.some.inj h1).symm
        refine ⟨rfl, rfl, ?_⟩
        show String.mk _ ++ ":" ++ String.mk _ = p
        rw [mk_append_colon, splitFirstColon_join p.data _ _ hsplit, mk_data_eta]
    · exact absurd (Prod.mk.injEq .. ▸ Option.some.inj h).1 (by simp)

/-- Invariants of the enumeration loop: every captured pane's command is
outside the hard exclusion set, and every returned instance is flagged as
Claude, keeps `enabled = false`, and reassembles some enumerated pane id. -/
theorem findAux_inv (env : DetectorEnv) :
    ∀ (l : List String) (res : EnumResult), findAux env l = some res →
      (∀ q ∈ res.captured, ¬pane_command env q ∈ squad_exclusions) ∧
      (∀ inst ∈ res.instances, inst.is_claude = true ∧ inst.enabled = false ∧
        ∃ pane_id ∈ l, inst.session ++ ":" ++ inst.pane = pane_id) := by
  intro l
  induction l with
  | nil =>
    intro res h
    simp [findAux] at h
    obtain rfl := h.symm
    simp
  | cons p t ih =>
    intro res h
    simp only [findAux] at h
    match hp : processPane env p with
    | none => rw [hp] at h; simp at h
    | some (inst?, caps) =>
      rw [hp] at h
      match ht : findAux env t with
      | none => rw [ht] at h; simp at h
      | some r =>
        rw [ht] at h
        simp only [Option.some.injEq] at h
        obtain rfl := h.symm
        obtain ⟨ihc, ihi⟩ := ih r ht
        constructor
        · intro q hq
          simp only [List.mem_append] at hq
          rcases hq with hq | hq
          · obtain ⟨rfl, hne⟩ := processPane_captured env p (inst?, caps) hp q hq
            exact hne
          · exact ihc q hq
        · intro inst hmem
          match inst? with
          | some i =>
            simp only [List.mem_cons] at hmem
            rcases hmem with rfl | hmem
            · obtain ⟨h1, h2, h3⟩ := processPane_inst env p inst caps hp
              exact ⟨h1, h2, p, List.mem_cons_self _ _, h3⟩
            · obtain ⟨h1, h2, pid, hpid, h3⟩ := ihi inst hmem
              exact ⟨h1, h2, pid, List.mem_cons_of_mem _ hpid, h3⟩
          | none =>
            obtain ⟨h1, h2, pid, hpid, h3⟩ := ihi inst hmem
            exact ⟨h1, h2, pid, List.mem_cons_of_mem _ hpid, h3⟩

/-- C3.  A `ProcessSnapshot` whose command is in the exclusion set is
never classified as Claude, and an enumeration that completes never
captured content for a pane whose reported command is in the exclusion
set. -/
theorem C3_exclusion_absolute :
    (∀ (env : DetectorEnv) (info : ProcessSnapshot), info.command ∈ squad_exclusions →
      is_claude_process env (some info) = false) ∧
    (∀ (env : DetectorEnv) (res : EnumResult), find_claude_instances env = some res →
      ∀ (pane_id : String) (info : ProcessSnapshot), pane_id ∈ env.panes →
        env.paneInfo pane_id = some info → info.command ∈ squad_exclusions →
        pane_id ∉ res.captured) := by
  constructor
  · intro env info h
    simp [is_claude_process, h]
  · intro env res hres pane_id info _ hinfo hexcl hcap
    have hne := (findAux_inv env env.panes res hres).1 pane_id hcap
    apply hne
    simpa [pane_command, hinfo] using hexcl

/-- Concrete enumeration input for the C3 witness: a single pane running
the excluded wrapper command. -/
def envC3 : DetectorEnv :=
  { panes := ["x:0"], paneInfo := fun _ => some ⟨"claude-squad", "7"⟩,
    psArgs := fun _ => none, processTable := none,
    capture := fun _ => "Welcome to Claude Code", logTail := none, now := "00:00:00" }

/-- Witness for C3: the wrapper snapshot classifies false, and the
excluded pane is skipped with no content capture. -/
theorem C3_exclusion_witness :
    is_claude_process envC3 (some ⟨"claude-squad", "7"⟩) = false ∧
    "x:0" ∉ (EnumResult.mk [] []).captured :=
  ⟨C3_exclusion_absolute.1 envC3 ⟨"claude-squad", "7"⟩ (by decide),
    C3_exclusion_absolute.2 envC3 ⟨[], []⟩ (by decide) "x:0" ⟨"claude-squad", "7"⟩
      (by decide) rfl (by decide)⟩

/-- Concrete enumeration input for C6: one pane running `claude` directly,
while the persisted store has that pane enabled. -/
def envC6 : DetectorEnv :=
  { panes := ["a:0"], paneInfo := fun _ => some ⟨"claude", "1"⟩,
    psArgs := fun _ => none, processTable := none,
    capture := fun _ => "", logTail := none, now := "12:00:00" }

/-- C6.  The claim is false: `find_claude_instances` never populates
`enabled` from the store — the returned instance has `enabled = false`
even though the store reports the pane enabled at enumeration time. -/
theorem C6_counterexample :
    find_claude_instances envC6 =
      some ⟨[⟨"a", "0", true, none, false⟩], ["a:0"]⟩ ∧
    (ConfigManager.loadFrom ⟨some ⟨["a:0"], false, 30, true⟩⟩).is_enabled "a:0" = true ∧
    (⟨"a", "0", true, none, false⟩ : ClaudeInstance).enabled = false := by decide

/-- C6 (amended).  Every `ClaudeInstance` returned by
`find_claude_instances` has `enabled = false` (the dataclass default):
enablement is not populated from the store during enumeration — callers
query the store separately. -/
theorem C6_enabled_always_false (env : DetectorEnv) (res : EnumResult)
    (h : find_claude_instances env = some res) :
    ∀ inst ∈ res.instances, inst.enabled = false := by
  intro inst hmem
  exact ((findAux_inv env env.panes res h).2 inst hmem).2.1

/-- Witness for C6 (amended) at the concrete enumeration input. -/
theorem C6_enabled_witness :
    find_claude_instances envC6 = some ⟨[⟨"a", "0", true, none, false⟩], ["a:0"]⟩ ∧
    (⟨"a", "0", true, none, false⟩ : ClaudeInstance).enabled = false :=
  ⟨by decide,
    C6_enabled_always_false envC6 ⟨[⟨"a", "0", true, none, false⟩], ["a:0"]⟩ (by decide)
      ⟨"a", "0", true, none, false⟩ (by decide)⟩

/-- C9.  Every instance returned by `find_claude_instances` has
`is_claude = true`, and joining its session and pane fields with a single
`":"` reproduces exactly one of the enumerated pane identity strings. -/
theorem C9_instance_invariant (env : DetectorEnv) (res : EnumResult)
    (h : find_claude_instances env = some res) :
    ∀ inst ∈ res.instances, inst.is_claude = true ∧
      ∃ pane_id ∈ env.panes, inst.session ++ ":" ++ inst.pane = pane_id := by
  intro inst hmem
  obtain ⟨h1, _, pid, hpid, h3⟩ := (findAux_inv env env.panes res h).2 inst hmem
  exact ⟨h1, pid, hpid, h3⟩

/-- Concrete enumeration input for the C9 witness: one Claude pane whose
pane id contains a dotted window.pane index after the first colon. -/
def envC9 : DetectorEnv :=
  { panes := ["work:1.2"], paneInfo := fun _ => some ⟨"claude", "42"⟩,
    psArgs := fun _ => none, processTable := none,
    capture := fun _ => "", logTail := none, now := "09:00:00" }

/-- Witness for C9 at the concrete input: the returned instance is
flagged as Claude and `"work" ++ ":" ++ "1.2"` reassembles the pane id. -/
theorem C9_instance_witness :
    find_claude_instances envC9 =
      some ⟨[⟨"work", "1.2", true, none, false⟩], ["work:1.2"]⟩ ∧
    ((⟨"work", "1.2", true, none, false⟩ : ClaudeInstance).is_claude = true ∧
      ∃ pane_id ∈ envC9.panes,
        (⟨"work", "1.2", true, none, false⟩ : ClaudeInstance).session ++ ":" ++
          (⟨"work", "1.2", true, none, false⟩ : ClaudeInstance).pane = pane_id) :=
  ⟨by decide,
    C9_instance_invariant envC9 ⟨[⟨"work", "1.2", true, none, false⟩], ["work:1.2"]⟩
      (by decide) ⟨"work", "1.2", true, none, false⟩ (by decide)⟩

end AutoYes
